import Mathlib

/-
  Verification of the A2Stream pulse-generator synthesizer and playback
  driver (player.c) and the stream-acceptance logic of the main module.

  The C code is shallowly embedded: instruction descriptors become a Lean
  structure, the task tables and flow table become lists, and the two
  generator synthesis routines (gen_pulse / gen_pulse_34) become executable
  functions that emit the same byte stream and keep the same cycle
  accounting as the C code.  The build is the HAVE_ETH build (the real
  networked player); machine integers are modelled as Nat (all quantities
  involved stay far below any wrap-around).
-/

namespace A2Stream

/-! ## Constants (player.c #defines) -/

def DTY_MAX : Nat := 36    -- duty maximum
def CYC_MAX : Nat := 46    -- cycle maximum for pulse generator
def GEN_MAX : Nat := 43    -- byte size maximum for pulse generator
def GEN_END : Nat := 5     -- byte size of pulse generator 34 end
def GEN_NUM : Nat := 5     -- number of pulse generators per page
def SET_NUM : Nat := 2     -- number of pulse generator page sets
def RW_SKEW : Nat := 4     -- byte skew between read and write

def SPKR_PTR : Nat := 0xFA
def VISU_PTR : Nat := 0xFC
def RING_BUF : Nat := 0x0100
def PLAY_BUF : Nat := 0x4000
def LEAVE    : Nat := 0xD400

def HIGH : Nat := 0xC085   -- W5100 address high byte
def LOW  : Nat := 0xC086   -- W5100 address low byte
def DATA : Nat := 0xC087   -- W5100 data

def HIRES_186 : Nat := 0x2BD0
def HIRES_187 : Nat := 0x2FD0
def HIRES_188 : Nat := 0x33D0
def HIRES_189 : Nat := 0x37D0
def HIRES_190 : Nat := 0x3BD0
def HIRES_191 : Nat := 0x3FD0

def lo (a : Nat) : Nat := a % 256
def hi (a : Nat) : Nat := a / 256 % 256

/-! ## Instruction descriptors (struct ins)

  `opc` holds the encoded bytes (only the first `len` are meaningful,
  mirroring the C `uint8_t opc[5]`), `cyc` the cycle cost, `eth` the
  Ethernet-card-access flag.  The C task arrays are BRK-terminated; here a
  task is the Lean list of its instructions, the end of the list playing
  the role of the BRK sentinel. -/

structure Ins where
  opc : List Nat
  len : Nat
  cyc : Nat
  eth : Bool
deriving DecidableEq

def mkNOP : Ins := ⟨[0xEA], 1, 2, false⟩
def mkTAY : Ins := ⟨[0xA8], 1, 2, false⟩
def mkINC : Ins := ⟨[0x1A], 1, 2, false⟩
def mkINY : Ins := ⟨[0xC8], 1, 2, false⟩
def mkPLA : Ins := ⟨[0x68], 1, 4, false⟩
def mkPLX : Ins := ⟨[0xFA], 1, 4, false⟩
def mkBRA (disp : Nat) : Ins := ⟨[0x80, disp], 2, 3, false⟩
def mkBNE_JMP (a : Nat) : Ins := ⟨[0xD0, 0x03, 0x4C, lo a, hi a], 5, 3, false⟩
def mkBPL_JMP (a : Nat) : Ins := ⟨[0x10, 0x03, 0x4C, lo a, hi a], 5, 3, false⟩
def mkJMP (a : Nat) : Ins := ⟨[0x4C, lo a, hi a], 3, 3, false⟩
def mkAND_IM (b : Nat) : Ins := ⟨[0x29, b], 2, 2, false⟩
def mkORA_IM (b : Nat) : Ins := ⟨[0x09, b], 2, 2, false⟩
def mkLDA_IM (b : Nat) : Ins := ⟨[0xA9, b], 2, 2, false⟩
def mkLDY_IM (b : Nat) : Ins := ⟨[0xA0, b], 2, 2, false⟩
def mkSTA_ZP (a : Nat) : Ins := ⟨[0x85, a], 2, 3, false⟩
def mkLDA_A (a : Nat) : Ins := ⟨[0xAD, lo a, hi a], 3, 4, false⟩
def mkLDA_E (a : Nat) : Ins := ⟨[0xAD, lo a, hi a], 3, 4, true⟩
def mkLDY_E (a : Nat) : Ins := ⟨[0xAC, lo a, hi a], 3, 4, true⟩
def mkSTA_A (a : Nat) : Ins := ⟨[0x8D, lo a, hi a], 3, 4, false⟩
def mkSTX_A (a : Nat) : Ins := ⟨[0x8E, lo a, hi a], 3, 4, false⟩
def mkSTA_E (a : Nat) : Ins := ⟨[0x8D, lo a, hi a], 3, 4, true⟩
def mkSTY_E (a : Nat) : Ins := ⟨[0x8C, lo a, hi a], 3, 4, true⟩
def mkLDA_AY (a : Nat) : Ins := ⟨[0xB9, lo a, hi a], 3, 4, false⟩
def mkSTA_AY (a : Nat) : Ins := ⟨[0x99, lo a, hi a], 3, 5, false⟩
def mkLDA_I (a : Nat) : Ins := ⟨[0xB2, a], 2, 5, false⟩
def mkLDA_IY (a : Nat) : Ins := ⟨[0xB1, a], 2, 5, false⟩
def mkSTA_I (a : Nat) : Ins := ⟨[0x92, a], 2, 5, false⟩

/-- Embeds `static struct ins nop`. -/
def nop : Ins := mkNOP
/-- Embeds `static struct ins bra_nop`. -/
def bra_nop : Ins := mkBRA 0x00
/-- Embeds `static struct ins spkr_a` — access speaker directly. -/
def spkr_a : Ins := mkSTA_A 0xC030
/-- Embeds `static struct ins spkr_i` — access speaker via pointer. -/
def spkr_i : Ins := mkSTA_I SPKR_PTR
/-- Embeds `static struct ins plx` — pull next sample from buffer. -/
def plx : Ins := mkPLX
/-- Embeds `static struct ins stx` — store jump address high byte. -/
def stx : Ins := mkSTX_A 0x0000
/-- Embeds `static struct ins jmp` — jump to modified address. -/
def jmp : Ins := mkJMP 0x0000

/-! ## Task tables (HAVE_ETH build) -/

def pulse_34 : List Ins :=
  [mkSTA_A 0xC030, mkNOP, mkNOP, mkSTA_A 0xC030, mkPLX, mkSTX_A 0x0000]

def prolog_1 : List Ins :=
  [mkLDA_A 0xC000, mkBPL_JMP LEAVE, mkLDA_IM 0x04, mkSTA_E HIGH,
   mkLDY_IM 0x26, mkSTY_E LOW]

def prolog_2 : List Ins :=
  [mkLDA_E DATA, mkBNE_JMP LEAVE, mkLDY_IM 0x28, mkSTY_E LOW,
   mkLDA_E DATA, mkLDY_E DATA]

def prolog_3 : List Ins :=
  [mkAND_IM 0x1F, mkORA_IM 0x60, mkSTA_E HIGH, mkSTY_E LOW,
   mkLDY_IM (RW_SKEW - 1)]

def transf_1 : List Ins :=
  [mkINY, mkLDA_E DATA, mkSTA_AY RING_BUF, mkINY]

def transf_2 : List Ins :=
  [mkLDA_E DATA, mkSTA_AY RING_BUF, mkINY, mkLDA_E DATA, mkSTA_AY RING_BUF]

def epilog_1 : List Ins :=
  [mkLDA_IM 0x04, mkSTA_E HIGH, mkLDY_IM 0x28, mkSTY_E LOW,
   mkLDA_E DATA, mkSTY_E LOW]

def epilog_2 : List Ins :=
  [mkINC, mkSTA_E DATA, mkLDY_IM 0x01, mkSTY_E LOW,
   mkLDA_IM 0x40, mkSTA_E DATA]

def init_vis : List Ins :=
  [mkPLA, mkSTA_ZP (VISU_PTR + 1), mkLDA_I VISU_PTR, mkTAY,
   mkSTA_AY 0xC054, mkLDY_IM 0x01]

def visual_1 : List Ins :=
  [mkLDA_IY VISU_PTR, mkSTA_AY HIRES_186, mkSTA_AY HIRES_187,
   mkSTA_AY HIRES_188]

def visual_2 : List Ins :=
  [mkSTA_AY HIRES_189, mkSTA_AY HIRES_190, mkSTA_AY HIRES_191, mkINY]

/-! ## Flow graph (struct flow flow[SET_NUM][GEN_NUM]) -/

structure Flow where
  ins : List Ins
  nxt : Nat       -- index of instructions for next pulse generator
deriving DecidableEq

def flow : List (List Flow) :=
  [[⟨prolog_1, 3⟩,   -- 0
    ⟨transf_2, 2⟩,   -- 1 - must match epilog_1 index to allow to switch there
    ⟨transf_1, 1⟩,   -- 2
    ⟨prolog_2, 4⟩,   -- 3
    ⟨prolog_3, 2⟩],  -- 4
   [⟨visual_1, 4⟩,   -- 0 - must match prolog_1 index to allow to switch there
    ⟨epilog_1, 2⟩,   -- 1
    ⟨epilog_2, 3⟩,   -- 2
    ⟨init_vis, 0⟩,   -- 3
    ⟨visual_2, 0⟩]]  -- 4

/-- Next-slot index of slot `g` in page set `s` (flow[s][g].nxt). -/
def nxt (s g : Nat) : Nat := ((flow.getD s []).getD g ⟨[], 0⟩).nxt

/-- Task instruction list of slot `g` in page set `s` (flow[s][g].ins). -/
def taskOf (s g : Nat) : List Ins := ((flow.getD s []).getD g ⟨[], 0⟩).ins

/-! ## fix_eth -/

/-- Patch a single descriptor as `fix_eth` does: Ethernet-flagged
  instructions get the device base offset OR-ed into the second opcode
  byte, in place. -/
def fixEthIns (i : Ins) (ofs : Nat) : Ins :=
  if i.eth then { i with opc := i.opc.set 1 ((i.opc.getD 1 0) ||| ofs) } else i

/-- Embeds `fix_eth(ins, ofs)`: walks the BRK-terminated descriptor array and
  patches every Ethernet-flagged entry in place. -/
def fix_eth (l : List Ins) (ofs : Nat) : List Ins := l.map (fixEthIns · ofs)

/-! ## Pulse generator synthesis (gen_pulse / gen_pulse_34)

  The synthesis routines are embedded as executable functions that emit the
  same bytes, in the same order, with the same cycle accounting as the C
  code.  Alongside the raw bytes an emission trace is kept, tagging each
  emitted element with its origin in the C code (one tag per emitting
  code block), so that placement properties can be stated directly. -/

/-- Origin of one emitted element inside a generator. -/
inductive Src where
  | end34    : Src   -- the prepended generator-34 duty end block (and the pulse_34 head)
  | dutyStart : Src  -- the duty start speaker access
  | dutyEndA : Src   -- normal duty end (spkr_a)
  | dutyEndI : Src   -- stretched duty end (spkr_i)
  | pull     : Src   -- PLX, pull next sample from buffer
  | store    : Src   -- STX, store jump address high byte
  | task     : Src   -- an instruction taken from the list of the task
  | fillBra  : Src   -- BRA filler
  | fillNop  : Src   -- NOP filler
deriving DecidableEq

/-- Synthesis state: bytes emitted so far, the emission trace, the cycle
  counter `cyc`, the `enum nxt` pull/store progress (0 = pull, 1 = store,
  2 = done), the recorded location `loc` of the STX operand (byte offset
  into `out`), and the remaining task instructions. -/
structure GenState where
  out : List Nat
  trace : List (Src × Ins)
  cyc : Nat
  nxt : Nat
  loc : Option Nat
  ins : List Ins

/-- Emit one instruction: append its `len` opcode bytes and account its
  cycles (the C `*ptr++ = ...opc[pos]` loops). -/
def emitIns (st : GenState) (s : Src) (i : Ins) : GenState :=
  { st with out := st.out ++ i.opc.take i.len,
            trace := st.trace ++ [(s, i)],
            cyc := st.cyc + i.cyc }

/-- One iteration of the `while (cyc + jmp.cyc < CYC_MAX)` loop body of
  `gen_pulse`, with the branches in source order. -/
def pulseStep (dty : Nat) (st : GenState) : GenState :=
  -- put normal duty end if no cycle left
  if st.cyc = dty then
    emitIns st .dutyEndA spkr_a
  -- put streched duty end if one cycle left
  else if st.cyc + 1 = dty then
    emitIns st .dutyEndI spkr_i
  -- put pulling next sample from buffer as soon as possible
  else if st.nxt = 0 ∧ (st.cyc + plx.cyc ≤ dty ∨ st.cyc > dty) then
    { emitIns st .pull plx with nxt := 1 }
  -- put storing jump address high byte using next sample:
  -- only opc[0] is written, the operand bytes are skipped (ptr += 2) and
  -- their location is saved until the address is known
  else if st.nxt = 1 ∧ (st.cyc + stx.cyc ≤ dty ∨ st.cyc > dty) then
    { st with out := st.out ++ [stx.opc.headD 0, 0, 0],
              trace := st.trace ++ [(.store, stx)],
              loc := some (st.out.length + 1),
              cyc := st.cyc + stx.cyc,
              nxt := 2 }
  -- now put arbitrary instructions
  else if st.ins ≠ [] ∧ (st.cyc + (st.ins.headD nop).cyc ≤ dty ∨ st.cyc > dty) then
    { emitIns st .task (st.ins.headD nop) with ins := st.ins.tail }
  -- if number of cycles to fill is odd then put a BRA
  else if (st.cyc < dty ∧ (dty - st.cyc) % 2 = 1) ∨
          (st.cyc > dty ∧ (st.cyc - jmp.cyc) % 2 = 1) then
    emitIns st .fillBra bra_nop
  else
    emitIns st .fillNop nop

/-- The `gen_pulse` main loop; every iteration adds at least two cycles, so
  `CYC_MAX` units of fuel always suffice. -/
def pulseLoop (dty : Nat) : Nat → GenState → GenState
  | 0, st => st
  | fuel + 1, st =>
    if st.cyc + jmp.cyc < CYC_MAX then pulseLoop dty fuel (pulseStep dty st) else st

/-- The NOP filler loop at the end of `gen_pulse_34`. -/
def nopLoop : Nat → GenState → GenState
  | 0, st => st
  | fuel + 1, st =>
    if st.cyc + jmp.cyc < CYC_MAX then nopLoop fuel (emitIns st .fillNop nop) else st

/-- Result of synthesizing one generator at base address `base`: the final
  bytes `out` (with the STX operand patched), the trace, the final cycle
  counter, the pull/store progress, the recorded STX operand offset, the
  task instructions left unemitted, and `storeTarget`, the address the C
  code writes through `loc` (`*loc = (uint16_t)ptr`) after emitting the
  terminal jump opcode and its low byte. -/
structure GenResult where
  out : List Nat
  trace : List (Src × Ins)
  cyc : Nat
  nxt : Nat
  loc : Option Nat
  insLeft : List Ins
  storeTarget : Nat

/-- Patch the two STX operand bytes at offset `l` with the little-endian
  16-bit address `tgt` (the C `*loc = (uint16_t)ptr`). -/
def patchLoc (out : List Nat) (l : Option Nat) (tgt : Nat) : List Nat :=
  match l with
  | none => out
  | some l => (out.set l (lo tgt)).set (l + 1) (hi tgt)

/-- Embeds `gen_pulse(ptr, ins, dty, low)`: synthesize the generator for duty
  `dtyIn` over task `ins` at address `base`, chaining to low byte `low`. -/
def gen_pulse (base : Nat) (ins : List Ins) (dtyIn low : Nat) : GenResult :=
  -- put duty end for generator 34, then put duty start; cycle accounting
  -- starts at the duty start (cyc = spkr_a.cyc)
  let st0 : GenState :=
    { out := spkr_a.opc.take spkr_a.len
               ++ [nop.opc.headD 0, nop.opc.headD 0]
               ++ spkr_a.opc.take spkr_a.len,
      trace := [(.end34, spkr_a), (.end34, nop), (.end34, nop),
                (.dutyStart, spkr_a)],
      cyc := spkr_a.cyc, nxt := 0, loc := none, ins := ins }
  let dty := dtyIn + spkr_a.cyc      -- minimal duty
  let st := pulseLoop dty CYC_MAX st0
  -- terminal jump: opcode and static low byte; the high byte cell is left
  -- unwritten (ptr ends up pointing at it)
  let out := st.out ++ [jmp.opc.headD 0, low]
  let cyc := st.cyc + jmp.cyc
  let target := base + out.length
  ⟨patchLoc out st.loc target, st.trace, cyc, st.nxt, st.loc, st.ins, target⟩

/-- Embeds `gen_pulse_34(ptr, ins, low)`: the dedicated generator-34 path. -/
def gen_pulse_34 (base : Nat) (ins : List Ins) (low : Nat) : GenResult :=
  -- first put pulse_34 instructions
  let st0 : GenState := { out := [], trace := [], cyc := 0, nxt := 2,
                          loc := none, ins := [] }
  let st1 := pulse_34.foldl (fun st i => emitIns st .end34 i) st0
  -- storing jump address high byte is last instruction in pulse_34, so its
  -- operand sits in the last two bytes emitted so far
  let st1 := { st1 with loc := some (st1.out.length - 2) }
  -- now put arbitrary instructions
  let st2 := ins.foldl (fun st i => emitIns st .task i) st1
  -- if number of cycles to fill is odd then put a BRA
  let st3 := if (st2.cyc - jmp.cyc) % 2 = 1 then emitIns st2 .fillBra bra_nop
             else st2
  let st4 := nopLoop CYC_MAX st3
  let out := st4.out ++ [jmp.opc.headD 0, low]
  let cyc := st4.cyc + jmp.cyc
  let target := base + out.length
  ⟨patchLoc out st4.loc target, st4.trace, cyc, st4.nxt, st4.loc, st4.ins, target⟩

/-! ## gen_player -/

/-- Embeds `uint8_t e_ofs = e_ini << 4`. -/
def eOfsOf (eIni : Nat) : Nat := (eIni <<< 4) % 256

/-- The base address gen_player places generator (s, g, d) at:
  `PLAY_BUF + s*DTY_MAX*0x100 + g*GEN_MAX + d*0x100`. -/
def genBase (s g d : Nat) : Nat :=
  PLAY_BUF + s * DTY_MAX * 0x100 + g * GEN_MAX + d * 0x100

/-- Embeds the dispatch of gen_player for one (page set `s`, slot `g`, duty `d`)
  triple: fix_eth the task of the slot, then `gen_pulse_34` for duty 34 and
  `gen_pulse` otherwise, with the flow table's next-slot low byte. -/
def genAt (eIni : Nat) (s g d : Nat) : GenResult :=
  let f := (flow.getD s []).getD g ⟨[], 0⟩
  let ins := fix_eth f.ins (eOfsOf eIni)
  if d = 34 then
    gen_pulse_34 (genBase s g d) ins (f.nxt * GEN_MAX)
  else
    gen_pulse (genBase s g d) ins d (f.nxt * GEN_MAX + GEN_END)

/-- The condition gen_player dispatches on: duty 34 (and only duty 34) is
  synthesized by the dedicated alternate path `gen_pulse_34`. -/
def usesAltPath (d : Nat) : Bool := d = 34

/-! ## Flow graph traversal -/

/-- Iterates the next-slot index `k` times inside page set `s`. -/
def iterNxt (s : Nat) : Nat → Nat → Nat
  | 0, g => g
  | k + 1, g => iterNxt s k (nxt s g)

/-- Slot `b` is eventually reached (in at least one step) from slot `a` by
  following the next-slot index inside page set `s`. -/
def reaches (s a b : Nat) : Prop := ∃ k, 0 < k ∧ iterNxt s k a = b

/-- The node a cross-page-set transfer out of slot `g` of page set `s`
  lands on: the jump target low byte selects slot `nxt s g`, and rewriting
  the high byte (the runtime-patched cell) into the base region of the
  other page set selects that page set. -/
def crossTarget (s g : Nat) : Nat × Nat := (1 - s, nxt s g)

/-- Membership in the terminal 2-cycle of the in-set flow of page set `s`:
  slots 1 (transf_2) and 2 (transf_1) in page set 0, slots 0 (visual_1)
  and 4 (visual_2) in page set 1. -/
def inCycle (s g : Nat) : Bool := if s = 0 then g = 1 || g = 2 else g = 0 || g = 4

/-! ## Placement checkers

  Boolean postcondition checks evaluated on one synthesized generator;
  they restate, over the embedding, the assertions at the end of gen_pulse
  and the store-patch geometry. -/

/-- Task-placement postcondition of one generator result: the task
  instructions appear in the trace exactly once each and in original list
  order (the filtered trace equals the task list itself), no task
  instruction is left over, and exactly one pull (PLX) and exactly one
  store (STX) were placed. -/
def taskPlacementOk (task : List Ins) (r : GenResult) : Bool :=
  ((r.trace.filter (fun p => p.1 == Src.task)).map Prod.snd == task) &&
  (r.insLeft == []) &&
  (r.trace.countP (fun p => p.1 == Src.pull) == 1) &&
  (r.trace.countP (fun p => p.1 == Src.store) == 1)

/-- Store-patch postcondition of a generator synthesized at base address
  `base` chaining via low byte `low`: the STX operand location was
  recorded, it lies strictly inside the body (before the terminal jump),
  the last two emitted bytes are the JMP opcode 0x4C and the static low
  byte `low`, and the two operand bytes at the recorded location decode
  (little endian) to `base + r.out.length` — the address of the first
  byte after the emitted low byte, which is exactly the unwritten
  high-byte operand cell of the terminal jump. -/
def storePatchOk (base low : Nat) (r : GenResult) : Bool :=
  match r.loc with
  | none => false
  | some l =>
    decide (l + 2 + 2 ≤ r.out.length) &&
    (r.out.getD (r.out.length - 2) 0 == 0x4C) &&
    (r.out.getD (r.out.length - 1) 0 == low) &&
    (r.out.getD l 0 + 256 * r.out.getD (l + 1) 0 == base + r.out.length)

/-- Static low byte gen_player passes for the generator of slot `g` of
  page set `s` at duty `d`: generator 34 chains to the very start of the
  next slot (its prepended landing pad), all others skip the GEN_END-byte
  landing pad. -/
def lowByteOf (s g d : Nat) : Nat :=
  if d = 34 then nxt s g * GEN_MAX else nxt s g * GEN_MAX + GEN_END

/-! ## Playback driver state machine (play)

  The loop body of play() is embedded as a step function over the state
  enum, the key event observed by kbhit/cgetc, and the buffered-sample
  availability reported by w5100_receive_request.  A `none` result is the
  abort path (w5100_disconnect + return).  The per-iteration rendering —
  mix_off + enter() versus mix_on + status text — is captured by
  `DriverAction`. -/

/-- Embeds `enum state {playing, pausing, waiting}`. -/
inductive PState where
  | playing : PState
  | pausing : PState
  | waiting : PState
deriving DecidableEq

/-- Key event observed in one driver iteration: no key pressed, the abort
  key (CH_ESC), or any other key. -/
inductive KeyEvent where
  | nokey : KeyEvent
  | escape : KeyEvent
  | other : KeyEvent
deriving DecidableEq

/-- Initial state of play(): `enum state state = playing`. -/
def playInit : PState := PState.playing

/-- Embeds the keyboard block of the play() loop: the abort key
  disconnects and returns (`none`); any other key toggles — Pausing
  becomes Playing, every other state becomes Pausing. -/
def keyPhase : PState → KeyEvent → Option PState
  | _, KeyEvent.escape => none
  | s, KeyEvent.nokey => some s
  | s, KeyEvent.other =>
      some (if s = PState.pausing then PState.playing else PState.pausing)

/-- Embeds the buffering block of the play() loop: when not Pausing, an
  availability of at least 0x0100 bytes selects Playing, less selects
  Waiting. -/
def buffPhase (s : PState) (avail : Nat) : PState :=
  if s ≠ PState.pausing then
    (if 0x100 ≤ avail then PState.playing else PState.waiting)
  else s

/-- Rendering done at the end of one driver iteration: whether the
  generated image is entered (after mix_off), whether the audio idle mix
  is re-enabled (mix_on), and the status text shown. -/
structure DriverAction where
  enter : Bool
  mixIdle : Bool
  status : Option String
deriving DecidableEq

/-- Embeds the rendering block of the play() loop: Playing enters the
  generated image with the idle mix disabled; Pausing and Waiting
  re-enable the idle mix and show a status text instead. -/
def renderPhase (s : PState) : DriverAction :=
  if s = PState.playing then ⟨true, false, none⟩
  else ⟨false, true, some (if s = PState.pausing then "Paus" else "Wait")⟩

/-- One full iteration of the play() driver loop: keyboard block, then
  buffering block, then rendering; `none` is the abort path. -/
def playStep (s : PState) (k : KeyEvent) (avail : Nat) :
    Option (PState × DriverAction) :=
  (keyPhase s k).map
    (fun s1 => (buffPhase s1 avail, renderPhase (buffPhase s1 avail)))

/-! ## Stream acceptance (main, cover-art section)

  The cover-art block of main() is embedded with the network reads as
  parameters: `tagLoadOk` is the success of the 2-byte type-tag load,
  `t0 t1` the tag bytes, `artOk` the success of the two load_hires cover
  payload transfers.  The result records the reported error, whether any
  cover-art read was attempted, whether the network handle was
  disconnected, and whether the iteration goes on to start playback. -/

inductive StreamErr where
  | failed : StreamErr
  | unknownType : StreamErr
deriving DecidableEq

structure AcceptResult where
  err : Option StreamErr
  artRead : Bool
  disconnected : Bool
  playbackStarted : Bool
deriving DecidableEq

/-- Embeds the cover-art acceptance block of main(): a failed tag load is
  a "Failed" error; a tag different from the reserved pair (0xA2, 0x01)
  is an "Unknown stream type" error; a failed cover-art transfer is a
  "Failed" error; every error path disconnects and skips playback
  (`continue`), only full success proceeds to play(). -/
def acceptStream (tagLoadOk : Bool) (t0 t1 : Nat) (artOk : Bool) : AcceptResult :=
  if tagLoadOk = false then ⟨some StreamErr.failed, false, true, false⟩
  else if t0 ≠ 0xA2 ∨ t1 ≠ 0x01 then ⟨some StreamErr.unknownType, false, true, false⟩
  else if artOk = false then ⟨some StreamErr.failed, true, true, false⟩
  else ⟨none, true, false, true⟩

/-! ## Theorems -/

/-- Helper for the C3 counterexample: the slot subset {1, 2, 3, 4} of page
  set 0 is closed under the next-slot map, so a trajectory that enters it
  can never return to slot 0. -/
theorem flowSet0_closed : ∀ (k g : Nat), (g = 1 ∨ g = 2 ∨ g = 3 ∨ g = 4) →
    (iterNxt 0 k g = 1 ∨ iterNxt 0 k g = 2 ∨ iterNxt 0 k g = 3 ∨ iterNxt 0 k g = 4) := by
  intro k
  induction k with
  | zero => intro g h; exact h
  | succ k ih =>
    intro g h
    have hs : iterNxt 0 (k + 1) g = iterNxt 0 k (nxt 0 g) := rfl
    rw [hs]
    apply ih
    rcases h with h | h | h | h <;> subst h <;> decide

/-- C3, counterexample: in the static flow table, following the next-slot
  index from slot 0 of page set 0 never revisits slot 0 — the five nodes
  of page set 0 do not form a single 5-cycle, so the claim fails already
  at node (page set 0, slot 0). -/
theorem c3_counterexample : ¬ reaches 0 0 0 := by
  rintro ⟨k, hk, h⟩
  obtain ⟨m, rfl⟩ : ∃ m, k = m + 1 := ⟨k - 1, (Nat.succ_pred_eq_of_pos hk).symm⟩
  have h1 : iterNxt 0 (m + 1) 0 = iterNxt 0 m 3 := by
    have hn : nxt 0 0 = 3 := by decide
    show iterNxt 0 m (nxt 0 0) = iterNxt 0 m 3
    rw [hn]
  have h2 := flowSet0_closed m 3 (by decide)
  have h3 : iterNxt 0 m 3 = 0 := by rw [← h1, h]
  rcases h2 with h2 | h2 | h2 | h2 <;> omega

/-- C3, amended: each page set is not a single 5-cycle; instead, following
  the next-slot index from every node lands within 3 steps in a terminal
  2-cycle — {transf_2 (slot 1), transf_1 (slot 2)} in page set 0 and
  {visual_1 (slot 0), visual_2 (slot 4)} in page set 1 — whose two nodes
  map to each other; the next-slot field itself carries no page-set
  component, and the designed cross-page-set interlock is by index
  matching: transf_1 chains to index 1, which is epilog_1 in page set 1,
  and visual_2 chains to index 0, which is prolog_1 in page set 0. -/
theorem c3_flow_shape_amended :
    (∀ s < SET_NUM, ∀ g < GEN_NUM, inCycle s (iterNxt s 3 g) = true) ∧
    (nxt 0 1 = 2 ∧ nxt 0 2 = 1 ∧ nxt 1 0 = 4 ∧ nxt 1 4 = 0) ∧
    (nxt 0 2 = 1 ∧ taskOf 1 1 = epilog_1) ∧
    (nxt 1 4 = 0 ∧ taskOf 0 0 = prolog_1) := by decide

/-- C3, witness for the amended theorem at page set 0, slot 0. -/
theorem c3_flow_shape_witness : inCycle 0 (iterNxt 0 3 0) = true :=
  c3_flow_shape_amended.1 0 (by decide) 0 (by decide)

/-- C7, counterexample: a cross-page-set transfer out of slot 3 of page
  set 0 (prolog_2) lands at slot 4 of the other page set (visual_2), not
  at slot 0 (visual_1) — so visual_1 is not reachable via a cross-page-set
  edge from slot 3 of page set 0 as claimed. -/
theorem c7_counterexample : crossTarget 0 3 ≠ (1, 0) ∧ crossTarget 0 3 = (1, 4) := by
  decide

/-- C7, amended: slot 0 of page set 0 (prolog_1) is indeed cross-reachable
  from slot 4 of page set 1 (visual_2); but no slot of page set 0 has next
  index 0, so visual_1 (slot 0 of page set 1) is not cross-reachable from
  page set 0 at all — it is entered in-set from init_vis (slot 3 of page
  set 1); the cross entry into page set 1 is at epilog_1 (slot 1) from
  transf_1 (slot 2 of page set 0), while prolog_2 (slot 3 of page set 0)
  chains to index 4 (prolog_3 in-set, visual_2 on a page-set switch). -/
theorem c7_crossover_amended :
    (crossTarget 1 4 = (0, 0) ∧ taskOf 1 4 = visual_2 ∧ taskOf 0 0 = prolog_1) ∧
    (∀ g < GEN_NUM, nxt 0 g ≠ 0) ∧
    (nxt 1 3 = 0 ∧ taskOf 1 3 = init_vis ∧ taskOf 1 0 = visual_1) ∧
    (crossTarget 0 2 = (1, 1) ∧ taskOf 0 2 = transf_1 ∧ taskOf 1 1 = epilog_1) ∧
    (taskOf 0 3 = prolog_2 ∧ crossTarget 0 3 = (1, 4)) := by decide

/-- C7, witness for the amended theorem at slot 0 of page set 0. -/
theorem c7_crossover_witness : nxt 0 0 ≠ 0 :=
  c7_crossover_amended.2.1 0 (by decide)

/-- Helper: the head of a list is unchanged when position 1 is set. -/
theorem headD_set_one (l : List Nat) (x : Nat) : (l.set 1 x).headD 0 = l.headD 0 := by
  rcases l with _ | ⟨a, t⟩ <;> rfl

/-- Helper: dropping two elements erases a write to position 1. -/
theorem drop_two_set_one (l : List Nat) (x : Nat) : (l.set 1 x).drop 2 = l.drop 2 := by
  rcases l with _ | ⟨a, _ | ⟨b, t⟩⟩ <;> rfl

/-- Helper: setting position 1 of a list of length at least 2 puts the
  value at position 1. -/
theorem getD_one_set_one (l : List Nat) (x : Nat) (h : 2 ≤ l.length) :
    (l.set 1 x).getD 1 0 = x := by
  rcases l with _ | ⟨a, _ | ⟨b, t⟩⟩
  · simp at h
  · simp at h
  · rfl

/-- C8, counterexample: fix_eth does mutate the shared task-table
  descriptors inside gen_player — with the default Ethernet slot 3 (device
  offset 0x30), the STA HIGH descriptor of prolog_1 has its operand byte
  changed in place from 0x85 to 0xB5, so the descriptors do not stay
  unchanged throughout gen_player. -/
theorem c8_counterexample :
    fix_eth prolog_1 (eOfsOf 3) ≠ prolog_1 ∧
    (fix_eth prolog_1 (eOfsOf 3)).getD 3 nop =
      { opc := [0x8D, 0xB5, 0xC0], len := 3, cyc := 4, eth := true } := by decide

/-- C8, amended: gen_player (through fix_eth) patches task-table
  descriptors in place, but only the second opcode byte (the operand low
  byte) of Ethernet-flagged descriptors, by OR-ing in the device base
  offset; every descriptor keeps its length, cycle count, device flag,
  first opcode byte and all opcode bytes beyond the second, and
  descriptors not flagged for device access are not touched at all. -/
theorem c8_fix_eth_amended : ∀ (i : Ins) (ofs : Nat),
    (fixEthIns i ofs).len = i.len ∧
    (fixEthIns i ofs).cyc = i.cyc ∧
    (fixEthIns i ofs).eth = i.eth ∧
    (fixEthIns i ofs).opc.length = i.opc.length ∧
    (fixEthIns i ofs).opc.headD 0 = i.opc.headD 0 ∧
    (fixEthIns i ofs).opc.drop 2 = i.opc.drop 2 ∧
    (i.eth = false → fixEthIns i ofs = i) ∧
    (i.eth = true → 2 ≤ i.opc.length →
      (fixEthIns i ofs).opc.getD 1 0 = i.opc.getD 1 0 ||| ofs) := by
  intro i ofs
  obtain ⟨opc, len, cyc, eth⟩ := i
  cases eth
  · exact ⟨rfl, rfl, rfl, rfl, rfl, rfl, fun _ => rfl, fun h => Bool.noConfusion h⟩
  · refine ⟨rfl, rfl, rfl, ?_, ?_, ?_, ?_, ?_⟩
    · exact List.length_set opc 1 _
    · exact headD_set_one opc _
    · exact drop_two_set_one opc _
    · intro h; exact Bool.noConfusion h
    · intro _ h2; exact getD_one_set_one opc _ h2

/-- C8, witness for the amended theorem: the patched STA HIGH descriptor
  of prolog_1 keeps its cycle count. -/
theorem c8_fix_eth_witness :
    (fixEthIns (mkSTA_E HIGH) (eOfsOf 3)).cyc = (mkSTA_E HIGH).cyc :=
  (c8_fix_eth_amended (mkSTA_E HIGH) (eOfsOf 3)).2.1

/-- C4: the play() driver realizes the claimed transition relation — the
  initial state is Playing; the abort key terminates the loop from any
  state; any other key moves Pausing to Playing and any non-Pausing state
  to Pausing; when the state after the key phase is not Pausing, buffered
  availability of at least 0x0100 yields Playing and below it Waiting; the
  action of an iteration is the rendering of the final state, the
  generated image is entered exactly when that state is Playing, and in
  Pausing or Waiting the audio idle mix is re-enabled and the matching
  status text is shown instead. -/
theorem c4_driver :
    playInit = PState.playing ∧
    (∀ (s : PState) (a : Nat), playStep s KeyEvent.escape a = none) ∧
    (keyPhase PState.pausing KeyEvent.other = some PState.playing) ∧
    (∀ s : PState, s ≠ PState.pausing →
      keyPhase s KeyEvent.other = some PState.pausing) ∧
    (∀ (s : PState) (a : Nat), s ≠ PState.pausing →
      buffPhase s a = (if 0x100 ≤ a then PState.playing else PState.waiting)) ∧
    (∀ (s : PState) (k : KeyEvent) (a : Nat) (s2 : PState) (act : DriverAction),
      playStep s k a = some (s2, act) → act = renderPhase s2) ∧
    (∀ s2 : PState, (renderPhase s2).enter = true ↔ s2 = PState.playing) ∧
    (renderPhase PState.pausing = ⟨false, true, some "Paus"⟩ ∧
     renderPhase PState.waiting = ⟨false, true, some "Wait"⟩) := by
  refine ⟨rfl, ?_, rfl, ?_, ?_, ?_, ?_, rfl, rfl⟩
  · intro s a; cases s <;> rfl
  · intro s h
    cases s
    · rfl
    · exact absurd rfl h
    · rfl
  · intro s a h
    cases s
    · rfl
    · exact absurd rfl h
    · rfl
  · intro s k a s2 act h
    unfold playStep at h
    rcases hk : keyPhase s k with _ | s1 <;> rw [hk] at h
    · exact absurd h (by simp)
    · simp only [Option.map_some', Option.some.injEq, Prod.mk.injEq] at h
      obtain ⟨rfl, rfl⟩ := h
      rfl
  · intro s2; cases s2 <;> simp [renderPhase]

/-- C4, witness: from Playing, a non-abort key moves the key phase to
  Pausing. -/
theorem c4_driver_witness : keyPhase PState.playing KeyEvent.other = some PState.pausing :=
  c4_driver.2.2.2.1 PState.playing (by decide)

/-- C10: in the play() driver a non-abort key press while Waiting moves
  the state to Pausing, not to Playing — the toggle only checks whether
  the current state is Pausing, so Playing and Waiting both move to
  Pausing, whatever the buffered availability is (the buffering block is
  skipped for a Pausing state). -/
theorem c10_waiting_key : ∀ a : Nat,
    playStep PState.waiting KeyEvent.other a
      = some (PState.pausing, renderPhase PState.pausing) ∧
    playStep PState.playing KeyEvent.other a
      = some (PState.pausing, renderPhase PState.pausing) ∧
    PState.pausing ≠ PState.playing := by
  intro a
  exact ⟨rfl, rfl, by decide⟩

/-- C9: any 2-byte handshake type tag other than the reserved pair
  (0xA2, 0x01) makes stream acceptance fail — the "Unknown stream type"
  error is reported, the network handle is disconnected, no cover-art
  read is attempted, and no playback starts, whatever the cover-art
  transfers would have returned. -/
theorem c9_handshake : ∀ t0 t1 : Nat, ¬(t0 = 0xA2 ∧ t1 = 0x01) → ∀ artOk : Bool,
    acceptStream true t0 t1 artOk =
      ⟨some StreamErr.unknownType, false, true, false⟩ := by
  intro t0 t1 h artOk
  have hc : t0 ≠ 0xA2 ∨ t1 ≠ 0x01 := by tauto
  simp [acceptStream, hc]

/-- C9, witness at the concrete bad tag (0xA2, 0x00). -/
theorem c9_handshake_witness :
    acceptStream true 0xA2 0x00 true =
      ⟨some StreamErr.unknownType, false, true, false⟩ :=
  c9_handshake 0xA2 0x00 (by decide) true

set_option maxRecDepth 100000

/-- C1: for every (page set, slot, duty) triple of the 2 x 5 x 36 = 360
  combinations, the generator synthesized by gen_player (gen_pulse, or
  gen_pulse_34 for duty 34, with the default Ethernet slot 3) has a total
  emitted cycle cost of exactly CYC_MAX = 46 and a total emitted byte
  length strictly below GEN_MAX = 43 — the assertions at the end of both
  synthesis routines hold on every generator. -/
theorem c1_budget : ∀ s < SET_NUM, ∀ g < GEN_NUM, ∀ d < DTY_MAX,
    (genAt 3 s g d).cyc = CYC_MAX ∧ (genAt 3 s g d).out.length < GEN_MAX := by
  decide

/-- C1, witness at page set 0, slot 0, duty 0. -/
theorem c1_budget_witness :
    (genAt 3 0 0 0).cyc = CYC_MAX ∧ (genAt 3 0 0 0).out.length < GEN_MAX :=
  c1_budget 0 (by decide) 0 (by decide) 0 (by decide)

/-- C2, counterexample: the general greedy placement path is invoked for
  the boundary duty value 1 — the gen_player dispatch special-cases only
  duty 34, so synthesizing (page set 0, slot 0, duty 1) is exactly a call
  of gen_pulse, contradicting the claim that the general path is never
  invoked for the two boundary duty values. -/
theorem c2_counterexample :
    usesAltPath 1 = false ∧
    genAt 3 0 0 1 =
      gen_pulse (genBase 0 0 1) (fix_eth prolog_1 (eOfsOf 3)) 1
        (3 * GEN_MAX + GEN_END) :=
  ⟨rfl, rfl⟩

/-- C2, amended: only the "last" boundary duty 34 is emitted by the
  dedicated alternate emission path gen_pulse_34 (and the general path is
  never invoked for it); the "first" boundary duty 1 is emitted by the
  general greedy path, which handles it by placing the one-cycle-slower
  indirect duty-end variant — for duty 1 every generator contains exactly
  one stretched duty end and no normal duty end. -/
theorem c2_alt_path_amended :
    (∀ d < DTY_MAX, (usesAltPath d = true ↔ d = 34)) ∧
    (∀ s < SET_NUM, ∀ g < GEN_NUM,
      (genAt 3 s g 1).trace.countP (fun p => p.1 == Src.dutyEndI) = 1 ∧
      (genAt 3 s g 1).trace.countP (fun p => p.1 == Src.dutyEndA) = 0) := by
  decide

/-- C2, witness: duty 34 takes the alternate path. -/
theorem c2_alt_path_witness : usesAltPath 34 = true :=
  (c2_alt_path_amended.1 34 (by decide)).mpr rfl

/-- C5: for every generator built by the general path gen_pulse (every
  duty except 34), each instruction of the task list of its slot is
  emitted exactly once in the original list order, no task instruction is
  left over, and exactly one pull (PLX) and exactly one store (STX)
  instruction are placed, regardless of the duty value. -/
theorem c5_task_once : ∀ s < SET_NUM, ∀ g < GEN_NUM, ∀ d < DTY_MAX, d ≠ 34 →
    taskPlacementOk (fix_eth (taskOf s g) (eOfsOf 3)) (genAt 3 s g d) = true := by
  decide

/-- C5, witness at page set 0, slot 0, duty 0. -/
theorem c5_task_once_witness :
    taskPlacementOk (fix_eth (taskOf 0 0) (eOfsOf 3)) (genAt 3 0 0 0) = true :=
  c5_task_once 0 (by decide) 0 (by decide) 0 (by decide) (by decide)

/-- C6: in every one of the 360 generators, the recorded store (STX)
  operand location lies inside the generator body, and after the terminal
  jump is emitted it is resolved to the address of the jump high-byte
  operand cell — the byte immediately following the emitted jump opcode
  0x4C and its static low byte, i.e. the address base + length of the
  emitted bytes — so the runtime-pulled sample writes the successor
  selector cell, not the body of the current generator. -/
theorem c6_store_patch : ∀ s < SET_NUM, ∀ g < GEN_NUM, ∀ d < DTY_MAX,
    storePatchOk (genBase s g d) (lowByteOf s g d) (genAt 3 s g d) = true := by
  decide

/-- C6, witness at page set 0, slot 0, duty 0. -/
theorem c6_store_patch_witness :
    storePatchOk (genBase 0 0 0) (lowByteOf 0 0 0) (genAt 3 0 0 0) = true :=
  c6_store_patch 0 (by decide) 0 (by decide) 0 (by decide)

end A2Stream
